import Mathlib

/-!
Verification of the tinyclaw terminal-session gateway core.

Shallow embedding of the three core components:
* `Gateway` (src/core/gateway.py): an in-memory registry mapping ids to live
  agents and channels.  Python dicts are modelled as association lists with
  unique keys (a Python dict can never hold two bindings for one key);
  mutation is explicit state passing, and a raised exception is an
  `Option GatewayError` returned alongside the state reached at the point of
  the raise.
* `TerminalAgent` (src/agents/terminal_agent.py): the process-owning agent,
  modelled as a state machine over its `process` / `pty_process` /
  `_reader_task` fields, with an explicit event log recording the externally
  visible actions (process spawned, terminated, killed, bytes written, ...).
  Environment-dependent outcomes (which OS, whether winpty is importable,
  whether a spawn or a write succeeds) are explicit parameters.
* `WebTerminalChannel` (src/channels/web_terminal_channel.py): the
  history-buffering websocket bridge.  Text is modelled as `List Char`
  (the chunk has already been permissively decoded, `data.decode` with
  errors ignored, exactly as the source does first); the attached websocket
  is an `Option Nat` transport identifier, and sends/closes are events.
-/

namespace TinyClaw

/-- A live agent as the gateway registry sees it (src/core/agent.py: the
registry only needs its identity here; process state is modelled separately
for the TerminalAgent claims). -/
structure AgentRec where
  agentId : String
  deriving Repr, DecidableEq

/-- A live channel as the gateway registry sees it: its id and the agent id
it was bound to at creation (src/core/channel.py, fields channel_id and
agent_id). -/
structure ChannelRec where
  channelId : String
  agentId : String
  deriving Repr, DecidableEq

/-- The four dicts of Gateway.__init__ (src/core/gateway.py lines 10-14).
Type registries only need the set of registered names. -/
structure GatewayState where
  agents : List (String × AgentRec)
  channels : List (String × ChannelRec)
  agentTypes : List String
  channelTypes : List String
  deriving Repr, DecidableEq

/-- The exceptions Gateway methods raise (RuntimeError / KeyError in the
source), plus propagation of an exception raised by agent.start(). -/
inductive GatewayError where
  | alreadyExists
  | unknownType
  | notFound
  | startFailed
  deriving Repr, DecidableEq

/-- Externally visible side effects of gateway operations: close() on a
channel being removed, stop() on an agent being removed, bind/open on a
channel being created. -/
inductive GwEvent where
  | channelClosed (channelId : String)
  | channelBound (channelId : String) (agentId : String)
  | channelOpened (channelId : String)
  | agentStopped (agentId : String)
  deriving Repr, DecidableEq

/-- Python dict lookup `m.get(k)`. -/
def lookup? {α : Type} (m : List (String × α)) (k : String) : Option α :=
  (m.find? (fun p => p.1 == k)).map (fun p => p.2)

/-- Python dict `m.pop(k, None)` restricted to its effect on the map: since
dict keys are unique, removing the binding of k is removing every pair whose
key is k. -/
def eraseKey {α : Type} (m : List (String × α)) (k : String) : List (String × α) :=
  m.filter (fun p => p.1 != k)

/-- Gateway.create_agent (src/core/gateway.py lines 22-31): duplicate-id
check, then type lookup, then construct and await start() (its success is
the explicit parameter startOk), and only then register.  The returned state
is the registry at the moment of return or raise. -/
def createAgent (st : GatewayState) (agentId agentType : String) (startOk : Bool) :
    GatewayState × Option GatewayError :=
  if (lookup? st.agents agentId).isSome then (st, some .alreadyExists)
  else if !(st.agentTypes.contains agentType) then (st, some .unknownType)
  else if !startOk then (st, some .startFailed)
  else ({ st with agents := st.agents ++ [(agentId, { agentId := agentId })] }, none)

/-- Gateway.create_channel (src/core/gateway.py lines 33-46): duplicate-id
check, then type lookup, then agent lookup, then construct, bind, open, and
finally register. -/
def createChannel (st : GatewayState) (channelId channelType agentId : String) :
    GatewayState × List GwEvent × Option GatewayError :=
  if (lookup? st.channels channelId).isSome then (st, [], some .alreadyExists)
  else if !(st.channelTypes.contains channelType) then (st, [], some .unknownType)
  else if (lookup? st.agents agentId).isNone then (st, [], some .notFound)
  else
    ({ st with
        channels := st.channels ++ [(channelId, { channelId := channelId, agentId := agentId })] },
     [.channelBound channelId agentId, .channelOpened channelId], none)

/-- Gateway.remove_channel (src/core/gateway.py lines 48-53): pop, and if a
channel was there, close it. -/
def removeChannel (st : GatewayState) (channelId : String) :
    GatewayState × List GwEvent × Bool :=
  match lookup? st.channels channelId with
  | none => (st, [], false)
  | some _ =>
    ({ st with channels := eraseKey st.channels channelId }, [.channelClosed channelId], true)

/-- The cascade loop of Gateway.remove_agent: remove_channel on each id of
related_channels in order. -/
def removeChannelsCascade (st : GatewayState) : List String → GatewayState × List GwEvent
  | [] => (st, [])
  | cid :: rest =>
    let r1 := removeChannel st cid
    let r2 := removeChannelsCascade r1.1 rest
    (r2.1, r1.2.1 ++ r2.2)

/-- Gateway.remove_agent (src/core/gateway.py lines 55-65): pop the agent;
if absent return False; otherwise snapshot the ids of channels whose
agent_id matches, remove each via remove_channel, then stop the agent. -/
def removeAgent (st : GatewayState) (agentId : String) :
    GatewayState × List GwEvent × Bool :=
  match lookup? st.agents agentId with
  | none => (st, [], false)
  | some _ =>
    let st0 : GatewayState := { st with agents := eraseKey st.agents agentId }
    let related := (st0.channels.filter (fun p => p.2.agentId == agentId)).map (fun p => p.1)
    let r := removeChannelsCascade st0 related
    (r.1, r.2 ++ [.agentStopped agentId], true)

/-! ## TerminalAgent (src/agents/terminal_agent.py) -/

/-- The pipe-backend process handle (asyncio.subprocess.Process): its exit
code, and whether its stdin pipe was wired (start() always wires it, so this
is True for every process start() spawned). -/
structure PipeProc where
  returncode : Option Int
  stdinOpen : Bool
  deriving Repr, DecidableEq

/-- The pty-backend process handle (winpty.PtyProcess): whether isalive()
reports it alive. -/
structure PtyProc where
  alive : Bool
  deriving Repr, DecidableEq

/-- The mutable fields of TerminalAgent relevant to lifecycle and I/O:
self.process, self.pty_process, self._reader_task (present or None). -/
structure TAState where
  process : Option PipeProc
  ptyProcess : Option PtyProc
  readerTask : Bool
  deriving Repr, DecidableEq

/-- Environment facts that pick the start() branch: os.name == "nt", whether
winpty imported (PtyProcess is not None), whether "codex" occurs in the
lowercased shell name. -/
structure TAEnv where
  osIsNt : Bool
  ptyAvailable : Bool
  shellHasCodex : Bool
  deriving Repr, DecidableEq

/-- Outcome of the spawn attempt inside start()'s try block (subprocess
creation or PtyProcess.spawn): success, or the FileNotFoundError path. -/
inductive SpawnOutcome where
  | ok
  | fileNotFound
  deriving Repr, DecidableEq

/-- The two exception classes the pipe write path maps to ConnectionLost
(src/agents/terminal_agent.py line 105), or success. -/
inductive PipeWriteOutcome where
  | ok
  | brokenPipe
  | connectionReset
  deriving Repr, DecidableEq

/-- Exceptions TerminalAgent raises: the two start() RuntimeErrors, and the
ProcessExited / ConnectionLost RuntimeErrors of send_input. -/
inductive TAError where
  | ptyRequired
  | shellNotFound
  | processExited
  | connectionLost
  deriving Repr, DecidableEq

/-- Externally visible actions of a TerminalAgent: OS process creations,
reader-task control, terminations, and writes to the process (the pty
backend writes the permissively decoded text of the bytes, the pipe backend
the bytes themselves; the payload is recorded as given). -/
inductive TAEvent where
  | spawnedPty
  | spawnedPipe
  | readerStarted
  | readerCancelled
  | ptyTerminated
  | ptyClosed
  | pipeTerminated
  | pipeKilled
  | wrotePty (data : List Nat)
  | wrotePipe (data : List Nat)
  deriving Repr, DecidableEq

/-- TerminalAgent.start (src/agents/terminal_agent.py lines 27-59): no-op if
a process or pty process is already present; the Windows+codex guard; spawn
on the pty branch when on nt with winpty available, else the pipe branch;
FileNotFoundError becomes a RuntimeError before any field is assigned;
finally the reader task is launched. -/
def taStart (env : TAEnv) (spawn : SpawnOutcome) (st : TAState) :
    TAState × List TAEvent × Option TAError :=
  if st.process.isSome || st.ptyProcess.isSome then (st, [], none)
  else if env.osIsNt && env.shellHasCodex && !env.ptyAvailable then
    (st, [], some .ptyRequired)
  else if env.osIsNt && env.ptyAvailable then
    match spawn with
    | .fileNotFound => (st, [], some .shellNotFound)
    | .ok =>
      ({ st with ptyProcess := some { alive := true }, readerTask := true },
       [.spawnedPty, .readerStarted], none)
  else
    match spawn with
    | .fileNotFound => (st, [], some .shellNotFound)
    | .ok =>
      ({ st with process := some { returncode := none, stdinOpen := true }, readerTask := true },
       [.spawnedPipe, .readerStarted], none)

/-- TerminalAgent.stop (src/agents/terminal_agent.py lines 61-85): cancel
the reader task if present; terminate and close the pty process, swallowing
errors, and clear it; for the pipe process, if its returncode is still None
then terminate, wait up to 2 seconds (waitTimesOut tells whether the wait
timed out) and kill on timeout; clear it.  Never raises. -/
def taStop (waitTimesOut : Bool) (st : TAState) : TAState × List TAEvent :=
  let readerEvs : List TAEvent := if st.readerTask then [.readerCancelled] else []
  let ptyEvs : List TAEvent := if st.ptyProcess.isSome then [.ptyTerminated, .ptyClosed] else []
  let pipeEvs : List TAEvent :=
    match st.process with
    | none => []
    | some p =>
      if p.returncode.isNone then
        if waitTimesOut then [.pipeTerminated, .pipeKilled] else [.pipeTerminated]
      else []
  ({ process := none, ptyProcess := none, readerTask := false },
   readerEvs ++ ptyEvs ++ pipeEvs)

/-- TerminalAgent.send_input (src/agents/terminal_agent.py lines 87-106).
With a pty process: isalive() check, then the write, any exception becoming
ConnectionLost (ptyWrite .ok means the write succeeded; any other outcome
stands for the caught Exception).  Without one: silent return when there is
no process or no stdin; returncode check; then write+drain with
ConnectionResetError / BrokenPipeError becoming ConnectionLost. -/
def taSendInput (st : TAState) (data : List Nat)
    (ptyWrite : PipeWriteOutcome) (pipeWrite : PipeWriteOutcome) :
    TAState × List TAEvent × Option TAError :=
  match st.ptyProcess with
  | some p =>
    if !p.alive then (st, [], some .processExited)
    else
      match ptyWrite with
      | .ok => (st, [.wrotePty data], none)
      | _ => (st, [], some .connectionLost)
  | none =>
    match st.process with
    | none => (st, [], none)
    | some p =>
      if !p.stdinOpen then (st, [], none)
      else
        match p.returncode with
        | some _ => (st, [], some .processExited)
        | none =>
          match pipeWrite with
          | .ok => (st, [.wrotePipe data], none)
          | _ => (st, [], some .connectionLost)

/-- A call made on one TerminalAgent over its lifetime, with the
environment-dependent outcomes of that call made explicit. -/
inductive TAOp where
  | start (env : TAEnv) (spawn : SpawnOutcome)
  | stop (waitTimesOut : Bool)
  | send (data : List Nat) (ptyWrite : PipeWriteOutcome) (pipeWrite : PipeWriteOutcome)
  deriving Repr, DecidableEq

/-- One call on the agent: the state reached and the events of that call
(raised errors do not stop the caller from making further calls). -/
def taStep (st : TAState) : TAOp → TAState × List TAEvent
  | .start env spawn => ((taStart env spawn st).1, (taStart env spawn st).2.1)
  | .stop w => taStop w st
  | .send d pw qw => ((taSendInput st d pw qw).1, (taSendInput st d pw qw).2.1)

/-- Run a sequence of calls on one agent, accumulating the event log. -/
def taRun (st : TAState) : List TAOp → TAState × List TAEvent
  | [] => (st, [])
  | op :: rest =>
    let r1 := taStep st op
    let r2 := taRun r1.1 rest
    (r2.1, r1.2 ++ r2.2)

/-- The TerminalAgent as freshly constructed (__init__, lines 18-25):
no process, no pty process, no reader task. -/
def taFresh : TAState := { process := none, ptyProcess := none, readerTask := false }

/-- Events that are the creation of a new OS process. -/
def isSpawnEvent : TAEvent → Bool
  | .spawnedPty => true
  | .spawnedPipe => true
  | _ => false

/-- Number of OS processes spawned in an event log. -/
def spawnCount (evs : List TAEvent) : Nat := (evs.filter isSpawnEvent).length

/-! ## WebTerminalChannel (src/channels/web_terminal_channel.py) -/

/-- The first literal the noise filter strips: the DA capability-probe echo
with its ESC byte, "\x1b[?1;2c" (line 88). -/
def daEchoSeq1 : List Char := '\x1b' :: '[' :: '?' :: '1' :: ';' :: '2' :: 'c' :: []

/-- The second literal the noise filter strips: the same echo without the
ESC byte, "[?1;2c" (line 88). -/
def daEchoSeq2 : List Char := '[' :: '?' :: '1' :: ';' :: '2' :: 'c' :: []

/-- Scanner for Python str.replace(pat, "") with a nonempty pattern: in skip
mode (first argument n+1) it discards the remaining characters of an
occurrence just matched; in scan mode (0) it drops a matching occurrence,
entering skip mode for its tail, and otherwise keeps the character
(leftmost-first, non-overlapping, exactly as str.replace). -/
def stripAllAux (pat : List Char) : Nat → List Char → List Char
  | _, [] => []
  | n + 1, _ :: rest => stripAllAux pat n rest
  | 0, c :: rest =>
    if !pat.isEmpty && pat.isPrefixOf (c :: rest) then
      stripAllAux pat (pat.length - 1) rest
    else
      c :: stripAllAux pat 0 rest

/-- Python str.replace(pat, ""): remove every occurrence of pat, scanning
left to right, non-overlapping. -/
def stripAll (pat s : List Char) : List Char :=
  stripAllAux pat 0 s

/-- Whether pat occurs as a contiguous substring. -/
def occursIn (pat : List Char) : List Char → Bool
  | [] => pat.isEmpty
  | c :: rest => pat.isPrefixOf (c :: rest) || occursIn pat rest

/-- WebTerminalChannel._filter_history_noise (lines 86-88):
text.replace("\x1b[?1;2c", "").replace("[?1;2c", ""). -/
def filterHistoryNoise (text : List Char) : List Char :=
  stripAll daEchoSeq2 (stripAll daEchoSeq1 text)

/-- Python s[-limit:] for a nonnegative int limit: the last limit characters
-- except that -0 is 0, so limit = 0 yields the whole string, not the empty
one. -/
def pySliceLast (limit : Nat) (s : List Char) : List Char :=
  if limit = 0 then s else s.drop (s.length - limit)

/-- The mutable fields of WebTerminalChannel the buffered-history and
transport claims concern: self._history, self._history_limit (int(kwargs
history_limit, default 200000)), and self.websocket, with transports
identified by a number (identity comparison in the source is identity of
these ids). -/
structure ChState where
  history : List Char
  historyLimit : Nat
  websocket : Option Nat
  deriving Repr, DecidableEq

/-- Calls the channel makes on websocket transports: accept(), close(code,
reason), send_text(text). -/
inductive WsEvent where
  | accepted (t : Nat)
  | closedWith (t : Nat) (code : Nat) (reason : String)
  | sentText (t : Nat) (text : List Char)
  deriving Repr, DecidableEq

/-- WebTerminalChannel.on_agent_data (lines 42-48) after the permissive
decode: append the noise-filtered text to history; truncate from the front
to the limit when the length exceeds it; forward the original, unfiltered
text to the attached websocket if any. -/
def onAgentData (st : ChState) (text : List Char) : ChState × List WsEvent :=
  let h1 := st.history ++ filterHistoryNoise text
  let h2 := if st.historyLimit < h1.length then pySliceLast st.historyLimit h1 else h1
  ({ st with history := h2 },
   match st.websocket with
   | some t => [.sentText t text]
   | none => [])

/-- The attach phase of WebTerminalChannel.handle_websocket (lines 50-61):
accept; if a different transport is attached, close it with code 4000 and
reason "Replaced by new connection", swallowing close errors; attach the new
transport; replay the history if nonempty.  None of these statements has a
suspension point between the close, the assignment, and the initiation of
the replay send, so the phase is one atomic step of the cooperative
scheduler. -/
def handleAttach (st : ChState) (t : Nat) : ChState × List WsEvent :=
  let closeEvs : List WsEvent :=
    match st.websocket with
    | some old => if old ≠ t then [.closedWith old 4000 "Replaced by new connection"] else []
    | none => []
  let st1 : ChState := { st with websocket := some t }
  let replayEvs : List WsEvent := if st1.history.isEmpty then [] else [.sentText t st1.history]
  (st1, [.accepted t] ++ closeEvs ++ replayEvs)

/-- The finally clause of handle_websocket (lines 74-76): on exit of the
receive loop for transport t, clear self.websocket only if it still points
at t itself. -/
def handleDetach (st : ChState) (t : Nat) : ChState :=
  if st.websocket = some t then { st with websocket := none } else st

/-- One atomic step of the channel under the cooperative single-threaded
scheduler: a transport attach, one pump-loop iteration feeding a decoded
chunk through on_agent_data, or a receive-loop exit. -/
inductive ChCmd where
  | attach (t : Nat)
  | pump (text : List Char)
  | detach (t : Nat)
  deriving Repr, DecidableEq

/-- Interpret one channel step. -/
def chStep (st : ChState) : ChCmd → ChState × List WsEvent
  | .attach t => handleAttach st t
  | .pump text => onAgentData st text
  | .detach t => (handleDetach st t, [])

/-- Run a schedule of channel steps, accumulating the transport calls in
order; a transport delivers messages in the order the channel issued the
send calls. -/
def chRun (st : ChState) : List ChCmd → ChState × List WsEvent
  | [] => (st, [])
  | c :: rest =>
    let r1 := chStep st c
    let r2 := chRun r1.1 rest
    (r2.1, r1.2 ++ r2.2)

/-- Recognize start() calls in a call sequence. -/
def isStartOp : TAOp → Bool
  | .start _ _ => true
  | _ => false

/-- Recognize stop() calls in a call sequence. -/
def isStopOp : TAOp → Bool
  | .stop _ => true
  | _ => false

/-! ## Theorems -/

/-- C1: every failing Gateway.create_agent call (duplicate id, unregistered
type, or an exception from the agent's start()) leaves the agent and channel
registries exactly as they were: the whole state is returned unchanged, so in
particular an existing agent under the same id is untouched; a taken id
always fails with AlreadyExists; a failing start() never registers; and only
a successful call appends the new agent under its id, leaving channels
alone. -/
theorem createAgent_failure_leaves_registry_unchanged
    (st : GatewayState) (aid ty : String) (ok : Bool) :
    ((createAgent st aid ty ok).2.isSome → (createAgent st aid ty ok).1 = st) ∧
    ((lookup? st.agents aid).isSome →
      (createAgent st aid ty ok).2 = some GatewayError.alreadyExists) ∧
    (ok = false → (createAgent st aid ty ok).2.isSome) ∧
    ((createAgent st aid ty ok).2 = none →
      lookup? st.agents aid = none ∧ ok = true ∧
      (createAgent st aid ty ok).1.agents = st.agents ++ [(aid, { agentId := aid })] ∧
      (createAgent st aid ty ok).1.channels = st.channels) := by
  unfold createAgent
  rcases h1 : (lookup? st.agents aid).isSome with _ | _ <;>
    rcases h2 : st.agentTypes.contains ty with _ | _ <;>
      rcases h3 : ok with _ | _ <;>
        simp_all [Option.isSome_iff_exists]

/-- Witness for C1 at a concrete registry: a duplicate id leaves the state
unchanged. -/
theorem createAgent_failure_leaves_registry_unchanged_witness :
    (createAgent
        { agents := [("a1", { agentId := "a1" })], channels := [],
          agentTypes := ["terminal"], channelTypes := [] } "a1" "terminal" true).1 =
      { agents := [("a1", { agentId := "a1" })], channels := [],
        agentTypes := ["terminal"], channelTypes := [] } :=
  (createAgent_failure_leaves_registry_unchanged
      { agents := [("a1", { agentId := "a1" })], channels := [],
        agentTypes := ["terminal"], channelTypes := [] } "a1" "terminal" true).1
    (by decide)

/-- C10: Gateway.create_channel checks its failure conditions in a fixed
order: a taken channel id yields AlreadyExists regardless of the type or the
agent id; with a fresh id, an unregistered type yields UnknownType regardless
of the agent id; NotFound arises exactly when the id is fresh, the type
registered, and the agent unknown; every failure leaves the state unchanged
with no channel bound, opened, or registered, and success binds, opens, then
registers. -/
theorem createChannel_error_precedence
    (st : GatewayState) (cid ty aid : String) :
    ((lookup? st.channels cid).isSome →
      (createChannel st cid ty aid).2.2 = some GatewayError.alreadyExists) ∧
    ((lookup? st.channels cid).isNone → st.channelTypes.contains ty = false →
      (createChannel st cid ty aid).2.2 = some GatewayError.unknownType) ∧
    ((lookup? st.channels cid).isNone → st.channelTypes.contains ty = true →
      (lookup? st.agents aid).isNone →
      (createChannel st cid ty aid).2.2 = some GatewayError.notFound) ∧
    ((createChannel st cid ty aid).2.2.isSome →
      (createChannel st cid ty aid).1 = st ∧ (createChannel st cid ty aid).2.1 = []) ∧
    ((createChannel st cid ty aid).2.2 = none →
      (createChannel st cid ty aid).2.1 =
        [GwEvent.channelBound cid aid, GwEvent.channelOpened cid] ∧
      (createChannel st cid ty aid).1.channels =
        st.channels ++ [(cid, { channelId := cid, agentId := aid })] ∧
      (createChannel st cid ty aid).1.agents = st.agents) := by
  unfold createChannel
  rcases h1 : (lookup? st.channels cid).isSome with _ | _ <;>
    rcases h2 : st.channelTypes.contains ty with _ | _ <;>
      rcases h3 : (lookup? st.agents aid).isNone with _ | _ <;>
        simp_all [Option.isSome_iff_ne_none, Option.isNone_iff_eq_none]

/-- Witness for C10 at a concrete registry: a duplicate channel id wins over
an unregistered type. -/
theorem createChannel_error_precedence_witness :
    (createChannel
        { agents := [], channels := [("c1", { channelId := "c1", agentId := "a1" })],
          agentTypes := [], channelTypes := [] } "c1" "nosuch" "a1").2.2 =
      some GatewayError.alreadyExists :=
  (createChannel_error_precedence
      { agents := [], channels := [("c1", { channelId := "c1", agentId := "a1" })],
        agentTypes := [], channelTypes := [] } "c1" "nosuch" "a1").1
    (by decide)

theorem lookup?_cons_self {α : Type} (k : String) (v : α) (m : List (String × α)) :
    lookup? ((k, v) :: m) k = some v := by
  simp [lookup?]

theorem lookup?_cons_ne {α : Type} (k k0 : String) (v : α) (m : List (String × α))
    (h : k0 ≠ k) : lookup? ((k0, v) :: m) k = lookup? m k := by
  simp [lookup?, List.find?_cons, h]

theorem eraseKey_cons_self {α : Type} (k : String) (v : α) (m : List (String × α)) :
    eraseKey ((k, v) :: m) k = eraseKey m k := by
  simp [eraseKey]

theorem eraseKey_cons_ne {α : Type} (k k0 : String) (v : α) (m : List (String × α))
    (h : k0 ≠ k) : eraseKey ((k0, v) :: m) k = (k0, v) :: eraseKey m k := by
  simp [eraseKey, h]

theorem eraseKey_of_not_mem {α : Type} (m : List (String × α)) (k : String)
    (h : k ∉ m.map Prod.fst) : eraseKey m k = m := by
  unfold eraseKey
  apply List.filter_eq_self.mpr
  intro p hp
  simp only [bne_iff_ne, ne_eq]
  intro hk
  exact h (hk ▸ List.mem_map_of_mem Prod.fst hp)

/-- The cascade loop never touches the agent registry or the type tables. -/
theorem removeChannelsCascade_preserves (st : GatewayState) (cids : List String) :
    (removeChannelsCascade st cids).1.agents = st.agents ∧
    (removeChannelsCascade st cids).1.agentTypes = st.agentTypes ∧
    (removeChannelsCascade st cids).1.channelTypes = st.channelTypes := by
  induction cids generalizing st with
  | nil => exact ⟨rfl, rfl, rfl⟩
  | cons cid rest ih =>
    unfold removeChannelsCascade removeChannel
    rcases h : lookup? st.channels cid with _ | v
    · simpa using ih st
    · simpa using ih { st with channels := eraseKey st.channels cid }

/-- Removing channels none of which has the key at the head of the channel
map leaves that head in place and behaves as on the tail. -/
theorem removeChannelsCascade_cons_skip (ag : List (String × AgentRec))
    (aty cty : List String) (k : String) (v : ChannelRec)
    (m : List (String × ChannelRec)) (cids : List String)
    (h : ∀ cid ∈ cids, cid ≠ k) :
    removeChannelsCascade ⟨ag, (k, v) :: m, aty, cty⟩ cids =
      (⟨ag, (k, v) :: (removeChannelsCascade ⟨ag, m, aty, cty⟩ cids).1.channels, aty, cty⟩,
       (removeChannelsCascade ⟨ag, m, aty, cty⟩ cids).2) := by
  induction cids generalizing m with
  | nil => rfl
  | cons cid rest ih =>
    have hck : cid ≠ k := h cid (List.mem_cons_self cid rest)
    have hrest : ∀ c ∈ rest, c ≠ k := fun c hc => h c (List.mem_cons_of_mem cid hc)
    have hlk : lookup? ((k, v) :: m) cid = lookup? m cid :=
      lookup?_cons_ne cid k v m (Ne.symm hck)
    have herase : eraseKey ((k, v) :: m) cid = (k, v) :: eraseKey m cid :=
      eraseKey_cons_ne cid k v m (Ne.symm hck)
    unfold removeChannelsCascade removeChannel
    rcases hl : lookup? m cid with _ | w
    · simp only [hlk, hl]
      simp [ih m hrest]
    · simp only [hlk, hl, herase]
      simp [ih (eraseKey m cid) hrest]

/-- On a channel map with unique keys, cascading over exactly the ids of the
channels bound to aid removes exactly those entries, in place, closing each,
and leaves every other entry untouched. -/
theorem removeChannelsCascade_filter (ag : List (String × AgentRec))
    (aty cty : List String) (aid : String) (m : List (String × ChannelRec))
    (hnodup : (m.map Prod.fst).Nodup) :
    removeChannelsCascade ⟨ag, m, aty, cty⟩
        ((m.filter (fun p => p.2.agentId == aid)).map Prod.fst) =
      (⟨ag, m.filter (fun p => p.2.agentId != aid), aty, cty⟩,
       (m.filter (fun p => p.2.agentId == aid)).map
         (fun p => GwEvent.channelClosed p.1)) := by
  induction m with
  | nil => rfl
  | cons hd rest ih =>
    obtain ⟨k, v⟩ := hd
    simp only [List.map_cons, List.nodup_cons] at hnodup
    obtain ⟨hk, hrest⟩ := hnodup
    rcases hv : v.agentId == aid with _ | _
    · have hmem : ∀ cid ∈ (rest.filter (fun p => p.2.agentId == aid)).map Prod.fst, cid ≠ k := by
        intro cid hc hck
        apply hk
        subst hck
        obtain ⟨p, hp, hpe⟩ := List.mem_map.mp hc
        exact hpe ▸ List.mem_map_of_mem Prod.fst (List.mem_of_mem_filter hp)
      have hskip := removeChannelsCascade_cons_skip ag aty cty k v rest
        ((rest.filter (fun p => p.2.agentId == aid)).map Prod.fst) hmem
      have hv2 : (v.agentId != aid) = true := by
        simp [bne, hv]
      simp only [List.filter_cons, hv, hv2, Bool.false_eq_true, if_false, if_true]
      rw [hskip, ih hrest]
    · unfold removeChannelsCascade removeChannel
      simp only [List.filter_cons, hv, if_true, List.map_cons, lookup?_cons_self,
        eraseKey_cons_self]
      rw [eraseKey_of_not_mem rest k hk]
      have heq : v.agentId = aid := by simpa using hv
      simp [ih hrest, hv, heq]

/-- C2: Gateway.remove_agent(A) on a registry whose channel map has unique
keys (as a Python dict always does) removes exactly the channels whose
recorded agent id is A, closing each through remove_channel in map order,
leaves every channel bound to another agent in place, then stops the removed
agent, and returns True; when no agent A exists it returns False and the
whole state is exactly as before. -/
theorem removeAgent_removes_exactly_bound_channels
    (st : GatewayState) (aid : String)
    (hnodup : (st.channels.map Prod.fst).Nodup) :
    ((lookup? st.agents aid).isNone → removeAgent st aid = (st, [], false)) ∧
    ((lookup? st.agents aid).isSome →
      (removeAgent st aid).2.2 = true ∧
      (removeAgent st aid).1.channels = st.channels.filter (fun p => p.2.agentId != aid) ∧
      (removeAgent st aid).1.agents = eraseKey st.agents aid ∧
      (removeAgent st aid).1.agentTypes = st.agentTypes ∧
      (removeAgent st aid).1.channelTypes = st.channelTypes ∧
      (removeAgent st aid).2.1 =
        ((st.channels.filter (fun p => p.2.agentId == aid)).map
          (fun p => GwEvent.channelClosed p.1)) ++ [GwEvent.agentStopped aid]) := by
  rcases h : lookup? st.agents aid with _ | a
  · constructor
    · intro _
      unfold removeAgent
      rw [h]
    · intro hs
      simp at hs
  · constructor
    · intro hn
      simp at hn
    · intro _
      have hcasc := removeChannelsCascade_filter (eraseKey st.agents aid)
        st.agentTypes st.channelTypes aid st.channels hnodup
      unfold removeAgent
      rw [h]
      simp only [hcasc]
      simp

/-- Witness for C2 at a concrete registry with two agents and three
channels: removing a1 closes and removes exactly c1 and c3, in order, then
stops a1. -/
theorem removeAgent_removes_exactly_bound_channels_witness :
    (removeAgent
        { agents := [("a1", { agentId := "a1" }), ("a2", { agentId := "a2" })],
          channels := [("c1", { channelId := "c1", agentId := "a1" }),
                       ("c2", { channelId := "c2", agentId := "a2" }),
                       ("c3", { channelId := "c3", agentId := "a1" })],
          agentTypes := [], channelTypes := [] } "a1").2.1 =
      [GwEvent.channelClosed "c1", GwEvent.channelClosed "c3", GwEvent.agentStopped "a1"] := by
  have h := removeAgent_removes_exactly_bound_channels
      { agents := [("a1", { agentId := "a1" }), ("a2", { agentId := "a2" })],
        channels := [("c1", { channelId := "c1", agentId := "a1" }),
                     ("c2", { channelId := "c2", agentId := "a2" }),
                     ("c3", { channelId := "c3", agentId := "a1" })],
        agentTypes := [], channelTypes := [] } "a1" (by decide)
  rw [(h.2 (by decide)).2.2.2.2.2]
  decide

/-- C9: TerminalAgent.stop on an Agent on which stop() has already
completed is a no-op: the first stop leaves no reader task, no pty process
and no process handle, so a second stop (under any wait-timeout outcome)
returns normally, performs no cancellation, termination or kill, and changes
no state. -/
theorem taStop_idempotent (st : TAState) (w1 w2 : Bool) :
    taStop w2 (taStop w1 st).1 = ((taStop w1 st).1, []) := by
  simp [taStop]

/-- send_input never mutates the agent's fields. -/
theorem taSendInput_state_frame (st : TAState) (data : List Nat)
    (pw qw : PipeWriteOutcome) : (taSendInput st data pw qw).1 = st := by
  unfold taSendInput
  repeat' split
  all_goals rfl

/-- C4: for a started TerminalAgent (a pty process, or a pipe process with
its stdin wired, is present), send_input raises ProcessExited exactly when
the process has already terminated (pty isalive() false, or pipe returncode
set), raises ConnectionLost exactly when the process is alive but the write
itself fails (any exception on the pty write; BrokenPipeError or
ConnectionResetError on the pipe write), and otherwise succeeds having
written the data; it never returns successfully without the write having
happened. -/
theorem taSendInput_error_taxonomy (st : TAState) (data : List Nat)
    (pw qw : PipeWriteOutcome)
    (hstarted : st.ptyProcess.isSome ∨ ∃ p, st.process = some p ∧ p.stdinOpen = true) :
    (∀ p, st.ptyProcess = some p →
      (p.alive = false →
        (taSendInput st data pw qw).2.2 = some TAError.processExited ∧
        (taSendInput st data pw qw).2.1 = []) ∧
      (p.alive = true → pw = PipeWriteOutcome.ok →
        (taSendInput st data pw qw).2.2 = none ∧
        (taSendInput st data pw qw).2.1 = [TAEvent.wrotePty data]) ∧
      (p.alive = true → pw ≠ PipeWriteOutcome.ok →
        (taSendInput st data pw qw).2.2 = some TAError.connectionLost ∧
        (taSendInput st data pw qw).2.1 = [])) ∧
    (st.ptyProcess = none → ∀ p, st.process = some p → p.stdinOpen = true →
      (p.returncode.isSome →
        (taSendInput st data pw qw).2.2 = some TAError.processExited ∧
        (taSendInput st data pw qw).2.1 = []) ∧
      (p.returncode = none → qw = PipeWriteOutcome.ok →
        (taSendInput st data pw qw).2.2 = none ∧
        (taSendInput st data pw qw).2.1 = [TAEvent.wrotePipe data]) ∧
      (p.returncode = none → qw ≠ PipeWriteOutcome.ok →
        (taSendInput st data pw qw).2.2 = some TAError.connectionLost ∧
        (taSendInput st data pw qw).2.1 = [])) ∧
    ((taSendInput st data pw qw).2.2 = none →
      (taSendInput st data pw qw).2.1 = [TAEvent.wrotePty data] ∨
      (taSendInput st data pw qw).2.1 = [TAEvent.wrotePipe data]) := by
  unfold taSendInput
  rcases hp : st.ptyProcess with _ | p
  · rcases hq : st.process with _ | q
    · rcases hstarted with h | ⟨p, hp2, _⟩
      · rw [hp] at h
        simp at h
      · rw [hq] at hp2
        simp at hp2
    · rcases hs : q.stdinOpen with _ | _
      · rcases hstarted with h | ⟨p, hp2, hso⟩
        · rw [hp] at h
          simp at h
        · rw [hq] at hp2
          obtain rfl : q = p := by injection hp2
          rw [hs] at hso
          simp at hso
      · rcases hr : q.returncode with _ | rc <;> rcases hw : qw with _ | _ | _ <;> simp_all
  · rcases ha : p.alive with _ | _ <;> rcases hw : pw with _ | _ | _ <;> simp_all

/-- Witness for C4: a started pipe-backend agent whose process has exited
raises ProcessExited. -/
theorem taSendInput_error_taxonomy_witness :
    (taSendInput
        { process := some { returncode := some 0, stdinOpen := true },
          ptyProcess := none, readerTask := false }
        [104, 105] PipeWriteOutcome.ok PipeWriteOutcome.ok).2.2 =
      some TAError.processExited := by
  have h := taSendInput_error_taxonomy
      { process := some { returncode := some 0, stdinOpen := true },
        ptyProcess := none, readerTask := false }
      [104, 105] PipeWriteOutcome.ok PipeWriteOutcome.ok
      (Or.inr ⟨{ returncode := some 0, stdinOpen := true }, rfl, rfl⟩)
  exact (((h.2.1 rfl) { returncode := some 0, stdinOpen := true } rfl rfl).1 (by decide)).1

theorem spawnCount_append (a b : List TAEvent) :
    spawnCount (a ++ b) = spawnCount a + spawnCount b := by
  simp [spawnCount, List.filter_append]

theorem spawnCount_taStop (w : Bool) (st : TAState) :
    spawnCount (taStop w st).2 = 0 := by
  unfold taStop
  repeat' split
  all_goals simp [spawnCount, isSpawnEvent]

theorem spawnCount_taSendInput (st : TAState) (d : List Nat)
    (pw qw : PipeWriteOutcome) : spawnCount (taSendInput st d pw qw).2.1 = 0 := by
  unfold taSendInput
  repeat' split
  all_goals simp [spawnCount, isSpawnEvent]

theorem taRun_append (st : TAState) (a b : List TAOp) :
    taRun st (a ++ b) =
      ((taRun (taRun st a).1 b).1, (taRun st a).2 ++ (taRun (taRun st a).1 b).2) := by
  induction a generalizing st with
  | nil => simp [taRun]
  | cons op rest ih =>
    simp only [List.cons_append, taRun, List.append_eq]
    rw [ih]
    simp [List.append_assoc]

/-- A run containing no start() call spawns no process. -/
theorem taRun_no_start_no_spawn (ops : List TAOp) (st : TAState)
    (h : ∀ op ∈ ops, isStartOp op = false) :
    spawnCount (taRun st ops).2 = 0 := by
  induction ops generalizing st with
  | nil => simp [taRun, spawnCount]
  | cons op rest ih =>
    have hop := h op (List.mem_cons_self op rest)
    have hrest : ∀ o ∈ rest, isStartOp o = false :=
      fun o ho => h o (List.mem_cons_of_mem op ho)
    rcases op with ⟨env, sp⟩ | w | ⟨d, pw, qw⟩
    · simp [isStartOp] at hop
    · simp only [taRun, taStep, spawnCount_append]
      simp [spawnCount_taStop, ih _ hrest]
    · simp only [taRun, taStep, spawnCount_append]
      simp [spawnCount_taSendInput, ih _ hrest]

/-- From a fresh agent (no process, no pty process), start() either fails
or no-ops leaving the state unchanged with no spawn, or spawns exactly one
process and leaves a handle present. -/
theorem taStart_cases (env : TAEnv) (sp : SpawnOutcome) (st : TAState)
    (hfresh : st.process = none ∧ st.ptyProcess = none) :
    ((taStart env sp st).1 = st ∧ spawnCount (taStart env sp st).2.1 = 0) ∨
    (((taStart env sp st).1.process.isSome || (taStart env sp st).1.ptyProcess.isSome) = true ∧
      spawnCount (taStart env sp st).2.1 = 1) := by
  unfold taStart
  rw [hfresh.1, hfresh.2]
  simp only [Option.isSome_none, Bool.or_self, Bool.false_eq_true, if_false]
  split
  · left
    simp [spawnCount]
  · split
    · rcases sp with _ | _
      · right
        simp [spawnCount, isSpawnEvent]
      · left
        simp [spawnCount]
    · rcases sp with _ | _
      · right
        simp [spawnCount, isSpawnEvent]
      · left
        simp [spawnCount]

/-- While a process handle (pipe or pty) is present and stop() is not
called, no further process is spawned and a handle remains present: start()
is a no-op on a started agent and send_input never clears the handles. -/
theorem taRun_started_no_stop_no_spawn (ops : List TAOp) (st : TAState)
    (hstop : ∀ op ∈ ops, isStopOp op = false)
    (hstarted : (st.process.isSome || st.ptyProcess.isSome) = true) :
    spawnCount (taRun st ops).2 = 0 ∧
    ((taRun st ops).1.process.isSome || (taRun st ops).1.ptyProcess.isSome) = true := by
  induction ops generalizing st with
  | nil => exact ⟨by simp [taRun, spawnCount], by simpa [taRun] using hstarted⟩
  | cons op rest ih =>
    have hop := hstop op (List.mem_cons_self op rest)
    have hrest : ∀ o ∈ rest, isStopOp o = false :=
      fun o ho => hstop o (List.mem_cons_of_mem op ho)
    rcases op with ⟨env, sp⟩ | w | ⟨d, pw, qw⟩
    · have hnoop : taStart env sp st = (st, [], none) := by
        unfold taStart
        rw [if_pos hstarted]
      simp only [taRun, taStep, hnoop, spawnCount_append]
      have hih := ih st hrest hstarted
      simpa [spawnCount] using hih
    · simp [isStopOp] at hop
    · have hframe := taSendInput_state_frame st d pw qw
      simp only [taRun, taStep, hframe, spawnCount_append, spawnCount_taSendInput]
      have hih := ih st hrest hstarted
      simpa [spawnCount] using hih

/-- A stop-free run from a freshly constructed agent spawns at most one
process. -/
theorem taRun_fresh_no_stop_spawn_le_one (ops : List TAOp) (st : TAState)
    (hstop : ∀ op ∈ ops, isStopOp op = false)
    (hfresh : st.process = none ∧ st.ptyProcess = none) :
    spawnCount (taRun st ops).2 ≤ 1 := by
  induction ops generalizing st with
  | nil => simp [taRun, spawnCount]
  | cons op rest ih =>
    have hrest : ∀ o ∈ rest, isStopOp o = false :=
      fun o ho => hstop o (List.mem_cons_of_mem op ho)
    rcases op with ⟨env, sp⟩ | w | ⟨d, pw, qw⟩
    · simp only [taRun, taStep, spawnCount_append]
      rcases taStart_cases env sp st hfresh with ⟨h1, h2⟩ | ⟨h1, h2⟩
      · rw [h2, h1]
        simpa using ih st hrest hfresh
      · rw [h2]
        have h3 := (taRun_started_no_stop_no_spawn rest (taStart env sp st).1 hrest h1).1
        rw [h3]
    · exact absurd (hstop _ (List.mem_cons_self _ _)) (by simp [isStopOp])
    · have hframe := taSendInput_state_frame st d pw qw
      simp only [taRun, taStep, hframe, spawnCount_append, spawnCount_taSendInput]
      simpa using ih st hrest hfresh

/-- C3 counterexample: the claim that at most one OS process is ever
spawned over an Agent's whole lifetime is false on the code: stop() clears
self.process, so the guard at the top of start() no longer fires, and a
start() after a stop() spawns a second process.  Concretely, on the pipe
backend the call sequence start; stop; start spawns two processes. -/
theorem taStopThenStart_spawns_second_process :
    spawnCount (taRun taFresh
      [TAOp.start { osIsNt := false, ptyAvailable := false, shellHasCodex := false }
         SpawnOutcome.ok,
       TAOp.stop false,
       TAOp.start { osIsNt := false, ptyAvailable := false, shellHasCodex := false }
         SpawnOutcome.ok]).2 = 2 := by
  decide

/-- C3 amended: over any sequence of calls on one Agent in which start() is
never invoked after stop() (every stop-free call sequence followed by a
start-free one), at most one OS process is spawned: start() on a started
Agent is a no-op.  The code does not itself prevent a restart — start()
after stop() does spawn a fresh process —: the at-most-one-process-per-
lifetime guarantee holds only because the Gateway never calls start() on a
stopped Agent and instead creates a new one. -/
theorem taRun_at_most_one_spawn_without_restart (a b : List TAOp)
    (ha : ∀ op ∈ a, isStopOp op = false) (hb : ∀ op ∈ b, isStartOp op = false) :
    spawnCount (taRun taFresh (a ++ b)).2 ≤ 1 := by
  have h1 := taRun_fresh_no_stop_spawn_le_one a taFresh ha ⟨rfl, rfl⟩
  have h2 := taRun_no_start_no_spawn b (taRun taFresh a).1 hb
  rw [taRun_append]
  simp only [spawnCount_append]
  omega

/-- Witness for amended C3: two start() calls then a stop() spawn at most
one process. -/
theorem taRun_at_most_one_spawn_without_restart_witness :
    spawnCount (taRun taFresh
      ([TAOp.start { osIsNt := false, ptyAvailable := false, shellHasCodex := false }
          SpawnOutcome.ok,
        TAOp.start { osIsNt := false, ptyAvailable := false, shellHasCodex := false }
          SpawnOutcome.ok] ++
       [TAOp.stop false])).2 ≤ 1 :=
  taRun_at_most_one_spawn_without_restart _ _ (by decide) (by decide)

theorem suffix_append_same {s F r : List Char} (h : s <:+ F) : s ++ r <:+ F ++ r := by
  obtain ⟨u, rfl⟩ := h
  exact ⟨u, by rw [List.append_assoc]⟩

/-- One on_agent_data call keeps the history within a positive limit, only
ever drops characters from the front (the result is a suffix of the old
history extended by the filtered text), and never changes the limit. -/
theorem onAgentData_history_step (st : ChState) (t : List Char)
    (hpos : 1 ≤ st.historyLimit) (hlen : st.history.length ≤ st.historyLimit) :
    (onAgentData st t).1.history.length ≤ st.historyLimit ∧
    (onAgentData st t).1.history <:+ st.history ++ filterHistoryNoise t ∧
    (onAgentData st t).1.historyLimit = st.historyLimit := by
  simp only [onAgentData]
  rcases Nat.lt_or_ge st.historyLimit (st.history ++ filterHistoryNoise t).length with hc | hc
  · rw [if_pos hc]
    unfold pySliceLast
    rw [if_neg (by omega)]
    refine ⟨?_, List.drop_suffix _ _, trivial⟩
    rw [List.length_drop]
    omega
  · rw [if_neg (by omega)]
    exact ⟨hc, List.suffix_refl _, trivial⟩

/-- Invariant of a run of on_agent_data calls: with a positive limit and an
in-bounds history, the limit is preserved, the bound holds after every call,
and the history stays a suffix of any upper concatenation extended by the
filtered texts. -/
theorem onAgentData_fold_invariant (texts : List (List Char)) (st : ChState)
    (hpos : 1 ≤ st.historyLimit) (hlen : st.history.length ≤ st.historyLimit) :
    ((texts.foldl (fun s t => (onAgentData s t).1) st).historyLimit = st.historyLimit) ∧
    ((texts.foldl (fun s t => (onAgentData s t).1) st).history.length ≤ st.historyLimit) ∧
    (∀ F : List Char, st.history <:+ F →
      (texts.foldl (fun s t => (onAgentData s t).1) st).history <:+
        F ++ (texts.map filterHistoryNoise).flatten) := by
  induction texts generalizing st with
  | nil =>
    refine ⟨rfl, hlen, ?_⟩
    intro F hF
    simpa using hF
  | cons t ts ih =>
    obtain ⟨hstep_len, hstep_suf, hstep_lim⟩ := onAgentData_history_step st t hpos hlen
    have ih2 := ih (onAgentData st t).1 (hstep_lim ▸ hpos) (hstep_lim ▸ hstep_len)
    simp only [List.foldl_cons, List.map_cons, List.flatten]
    refine ⟨ih2.1.trans hstep_lim, hstep_lim ▸ ih2.2.1, ?_⟩
    intro F hF
    have hsuf2 : (onAgentData st t).1.history <:+ F ++ filterHistoryNoise t :=
      hstep_suf.trans (suffix_append_same hF)
    have := ih2.2.2 (F ++ filterHistoryNoise t) hsuf2
    simpa [List.append_assoc] using this

theorem chRun_append (st : ChState) (a b : List ChCmd) :
    chRun st (a ++ b) =
      ((chRun (chRun st a).1 b).1, (chRun st a).2 ++ (chRun (chRun st a).1 b).2) := by
  induction a generalizing st with
  | nil => simp [chRun]
  | cons c rest ih =>
    simp only [List.cons_append, chRun, List.append_eq]
    rw [ih]
    simp [List.append_assoc]

theorem isPrefixOf_append_self (p s : List Char) : p.isPrefixOf (p ++ s) = true := by
  induction p with
  | nil => simp [List.isPrefixOf]
  | cons c cs ih => simp [List.isPrefixOf, ih]

/-- In skip mode with exactly the length of a just-matched block left, the
scanner discards that block and resumes scanning. -/
theorem stripAllAux_skip (pat a s : List Char) :
    stripAllAux pat a.length (a ++ s) = stripAllAux pat 0 s := by
  induction a with
  | nil => rfl
  | cons c cs ih => simpa [stripAllAux] using ih

/-- An occurrence of the (nonempty) pattern at the head is removed whole. -/
theorem stripAll_head_occurrence (p : Char) (pt rest : List Char) :
    stripAll (p :: pt) ((p :: pt) ++ rest) = stripAll (p :: pt) rest := by
  have hpre := isPrefixOf_append_self (p :: pt) rest
  rw [List.cons_append] at hpre
  unfold stripAll
  rw [List.cons_append]
  simp only [stripAllAux, List.isEmpty_cons, Bool.not_false, hpre, Bool.and_self, if_true,
    List.length_cons, Nat.add_sub_cancel]
  exact stripAllAux_skip (p :: pt) pt rest

/-- Text in which the pattern does not occur is passed through unchanged. -/
theorem stripAll_no_occurrence (pat s : List Char) (h : occursIn pat s = false) :
    stripAll pat s = s := by
  unfold stripAll
  induction s with
  | nil => rfl
  | cons c rest ih =>
    rw [occursIn, Bool.or_eq_false_iff] at h
    simp only [stripAllAux, h.1, Bool.and_false]
    rw [ih h.2]
    simp

/-- C5 counterexample: the claim fails at configured limit 0 (a value
int(kwargs) accepts): the truncation is self._history[-limit:], and -0 is 0,
so the slice is the whole string and the buffer ends one call later at
length 2, exceeding the limit 0. -/
theorem onAgentData_limit_zero_exceeds_limit :
    ¬ ((onAgentData { history := [], historyLimit := 0, websocket := none }
        (String.toList "hi")).1.history.length ≤ 0) := by
  decide

/-- C5 amended: for every positive configured limit (the default 200000
included), after every on_agent_data call on a freshly constructed channel
the history length is at most the limit, and the history is always a suffix
of the concatenation of all filtered text appended so far — truncation drops
exactly the oldest, front characters.  (As stated the claim also covered the
degenerate configured limit 0, where the Python slice from index -0 keeps
the whole string; see the counterexample.) -/
theorem onAgentData_history_bounded_suffix (limit : Nat) (hpos : 1 ≤ limit)
    (ws : Option Nat) (texts : List (List Char)) :
    ((texts.foldl (fun s t => (onAgentData s t).1)
        { history := [], historyLimit := limit, websocket := ws }).history.length ≤ limit) ∧
    ((texts.foldl (fun s t => (onAgentData s t).1)
        { history := [], historyLimit := limit, websocket := ws }).history <:+
      (texts.map filterHistoryNoise).flatten) := by
  have h := onAgentData_fold_invariant texts
    { history := [], historyLimit := limit, websocket := ws } hpos (by simp)
  exact ⟨h.2.1, by simpa using h.2.2 [] (List.suffix_refl [])⟩

/-- Witness for amended C5: limit 3, two chunks; the buffer holds the last
3 characters and is a suffix of the filtered concatenation. -/
theorem onAgentData_history_bounded_suffix_witness :
    ((([String.toList "abcd", String.toList "ef"]).foldl
        (fun s t => (onAgentData s t).1)
        { history := [], historyLimit := 3, websocket := none }).history.length ≤ 3) ∧
    ((([String.toList "abcd", String.toList "ef"]).foldl
        (fun s t => (onAgentData s t).1)
        { history := [], historyLimit := 3, websocket := none }).history <:+
      (([String.toList "abcd", String.toList "ef"]).map filterHistoryNoise).flatten) :=
  onAgentData_history_bounded_suffix 3 (by decide) none
    [String.toList "abcd", String.toList "ef"]

/-- C6 counterexample: the close reason the code passes is
"Replaced by new connection" (capital R, as written on line 55), so no close
with the claimed reason "replaced by new connection" is ever issued. -/
theorem handleAttach_reason_differs_from_claim :
    (WsEvent.closedWith 1 4000 "replaced by new connection") ∉
      (handleAttach { history := [], historyLimit := 200000, websocket := some 1 } 2).2 ∧
    (WsEvent.closedWith 1 4000 "Replaced by new connection") ∈
      (handleAttach { history := [], historyLimit := 200000, websocket := some 1 } 2).2 := by
  decide

/-- C6 amended: handling a new transport T2 on a channel currently serving a
distinct T1 always closes T1 — with code 4000 and reason
"Replaced by new connection" (the code capitalizes the first word; the claim
said "replaced by new connection") — then attaches T2, after which forwarded
agent output goes only to T2; and a receive-loop exit for a transport clears
the reference only if it still points at that same transport. -/
theorem handleAttach_replaces_transport (st : ChState) (t1 t2 : Nat)
    (h1 : st.websocket = some t1) (h2 : t1 ≠ t2) :
    (handleAttach st t2).2 =
      [WsEvent.accepted t2, WsEvent.closedWith t1 4000 "Replaced by new connection"] ++
      (if st.history.isEmpty then [] else [WsEvent.sentText t2 st.history]) ∧
    (handleAttach st t2).1.websocket = some t2 ∧
    (∀ text ev, ev ∈ (onAgentData (handleAttach st t2).1 text).2 →
      ev = WsEvent.sentText t2 text) ∧
    (handleDetach (handleAttach st t2).1 t2 =
      { (handleAttach st t2).1 with websocket := none }) ∧
    (∀ st2 : ChState, st2.websocket ≠ some t2 → handleDetach st2 t2 = st2) := by
  refine ⟨?_, ?_, ?_, ?_, ?_⟩
  · simp [handleAttach, h1, h2]
  · simp [handleAttach]
  · intro text ev hev
    simp [handleAttach, onAgentData] at hev
    simp [hev]
  · simp [handleDetach, handleAttach]
  · intro st2 hne
    simp [handleDetach, hne]

/-- Witness for amended C6 on a concrete channel serving transport 1 with
history "hi": transport 2 displaces it. -/
theorem handleAttach_replaces_transport_witness :
    (handleAttach { history := String.toList "hi", historyLimit := 200000, websocket := some 1 } 2).2 =
      [WsEvent.accepted 2, WsEvent.closedWith 1 4000 "Replaced by new connection"] ++
      (if (String.toList "hi").isEmpty then []
       else [WsEvent.sentText 2 (String.toList "hi")]) :=
  (handleAttach_replaces_transport
    { history := String.toList "hi", historyLimit := 200000, websocket := some 1 }
    1 2 rfl (by decide)).1

/-- C7: under the cooperative scheduler, for every schedule that attaches
transport t between a prefix and a suffix of channel steps, the event log
decomposes as: the prefix events, then — within the atomic attach step —
accept, the displacement close if another transport was attached, and the
replay of the full history as it stands at the attach (when nonempty),
followed only then by the events of the later steps; so the new transport
receives the whole current (possibly truncated) history before any output
pumped after the attach, none interleaved before or within the replay. -/
theorem attach_replays_history_before_later_output (init : ChState)
    (pre post : List ChCmd) (t : Nat) :
    (chRun init (pre ++ ChCmd.attach t :: post)).2 =
      (chRun init pre).2 ++
      ([WsEvent.accepted t] ++
       (match (chRun init pre).1.websocket with
        | some old =>
          if old ≠ t then [WsEvent.closedWith old 4000 "Replaced by new connection"] else []
        | none => []) ++
       (if (chRun init pre).1.history.isEmpty then []
        else [WsEvent.sentText t (chRun init pre).1.history])) ++
      (chRun { (chRun init pre).1 with websocket := some t } post).2 := by
  rw [chRun_append]
  simp only [chRun, chStep, handleAttach]
  simp [List.append_assoc]

/-- C8: on_agent_data appends to the history exactly the decoded text with
every occurrence of the two literal capability-probe echoes removed the way
str.replace removes them — "\x1b[?1;2c" first, then "[?1;2c", leftmost
first, non-overlapping — and nothing else altered: a leading occurrence is
removed whole, and text containing neither sequence is appended verbatim;
what is forwarded to the attached transport, if any, is the original decoded
text, unfiltered. -/
theorem onAgentData_filters_history_forwards_original (st : ChState) (text : List Char) :
    (((st.history ++ filterHistoryNoise text).length ≤ st.historyLimit →
      (onAgentData st text).1.history = st.history ++ filterHistoryNoise text)) ∧
    (filterHistoryNoise text = stripAll daEchoSeq2 (stripAll daEchoSeq1 text)) ∧
    (occursIn daEchoSeq1 text = false → occursIn daEchoSeq2 text = false →
      filterHistoryNoise text = text) ∧
    (∀ rest : List Char, stripAll daEchoSeq1 (daEchoSeq1 ++ rest) = stripAll daEchoSeq1 rest) ∧
    (∀ rest : List Char, stripAll daEchoSeq2 (daEchoSeq2 ++ rest) = stripAll daEchoSeq2 rest) ∧
    (∀ t, st.websocket = some t → (onAgentData st text).2 = [WsEvent.sentText t text]) ∧
    (st.websocket = none → (onAgentData st text).2 = []) := by
  refine ⟨?_, rfl, ?_, ?_, ?_, ?_, ?_⟩
  · intro hle
    simp only [onAgentData]
    rw [if_neg (by omega)]
  · intro ho1 ho2
    unfold filterHistoryNoise
    rw [stripAll_no_occurrence daEchoSeq1 text ho1, stripAll_no_occurrence daEchoSeq2 text ho2]
  · intro rest
    exact stripAll_head_occurrence _ _ rest
  · intro rest
    exact stripAll_head_occurrence _ _ rest
  · intro t ht
    simp [onAgentData, ht]
  · intro ht
    simp [onAgentData, ht]

/-- Witness for C8 on a concrete chunk holding one probe echo between
letters: the history gets the filtered text, the transport the original. -/
theorem onAgentData_filters_history_forwards_original_witness :
    (onAgentData { history := [], historyLimit := 200000, websocket := some 7 }
        (String.toList "a\x1b[?1;2cb")).2 =
      [WsEvent.sentText 7 (String.toList "a\x1b[?1;2cb")] :=
  (onAgentData_filters_history_forwards_original
    { history := [], historyLimit := 200000, websocket := some 7 }
    (String.toList "a\x1b[?1;2cb")).2.2.2.2.2.1 7 rfl

end TinyClaw
